import Mathlib

/-!
Verification of the conversation driver in `src/main.rs` of `rig-google-sheets`.

The program is a tool-augmented chat agent. Its core is `call_until_response`,
a loop that repeatedly builds a completion request, calls the completion model,
and either returns the model's text answer or invokes a tool and feeds the
result (or the error text) back as the next pending message. The outer `main`
loop reads stdin lines with `take_input` (Rust `read_line`, which keeps the
trailing newline), breaks on the literal string `quit`, and otherwise runs the
driver, unwrapping its result.

The embedding is shallow: the completion model and the tool set are modelled as
pure functions (the source reaches them through `CompletionModel::completion`
and `ToolSet::call`, both external to this repository); JSON values are
modelled by their serialized strings (the source serializes `arguments` with
`to_string()` at the single call site); the unbounded `loop` is given explicit
fuel, with `none` meaning the loop has not terminated within the fuel.
-/

set_option autoImplicit false

/-- Mirrors rig's `OneOrMany<T>`: a non-empty sequence with a distinguished
first element; `resp.choice.first()` in the source reads `first`. -/
structure OneOrMany (α : Type) where
  first : α
  rest : List α
deriving DecidableEq, Repr

/-- Mirrors `OneOrMany::one`. -/
def OneOrMany.one {α : Type} (x : α) : OneOrMany α := ⟨x, []⟩

/-- Mirrors rig's `ToolFunction` inside a tool call: `name` and `arguments`.
The `arguments` JSON value is modelled by its serialized string; the source
applies `.to_string()` to it at the only place it is consumed. -/
structure ToolFunction where
  name : String
  arguments : String
deriving DecidableEq, Repr

/-- Mirrors rig's `ToolCall { id, function }`. -/
structure ToolCall where
  id : String
  function : ToolFunction
deriving DecidableEq, Repr

/-- Mirrors rig's `AssistantContent` as used by the source: the response's
content items are text or tool calls. -/
inductive AssistantContent where
  | text (t : String)
  | toolCall (tc : ToolCall)
deriving DecidableEq, Repr

/-- Mirrors rig's `UserContent` as used by the source: plain text (the user
prompt) or a tool result. The source always builds a tool result as
`ToolResult { id, content: OneOrMany::one(ToolResultContent::Text(..)) }`,
so the single text payload is inlined here. -/
inductive UserContent where
  | text (t : String)
  | toolResult (id : String) (text : String)
deriving DecidableEq, Repr

/-- Mirrors rig's `Message`: a tagged user/assistant message, each carrying a
`OneOrMany` of content items. -/
inductive Message where
  | user (content : OneOrMany UserContent)
  | assistant (content : OneOrMany AssistantContent)
deriving DecidableEq, Repr

/-- True exactly on `Message::User`. -/
def Message.isUser : Message → Bool
  | .user _ => true
  | .assistant _ => false

/-- Mirrors rig's `ToolDefinition { name, description, parameters }`; the JSON
schema in `parameters` is modelled by its serialized string. -/
structure ToolDefinition where
  name : String
  description : String
  parameters : String
deriving DecidableEq, Repr

/-- The completion request assembled by `CompletionRequestBuilder` in
`call_until_response` (src/main.rs lines 137-143): preamble, a clone of the
chat history, the pending prompt message, `temperature(0.0)`,
`max_tokens(1024)` and a clone of the tool definitions. The model handle
passed to the builder is not part of the request data the claims are about and
is left out. `temperature` is a rational number standing for the `f64`; the
only value the source ever uses, `0.0`, is exact. -/
structure CompletionRequest where
  preamble : String
  chatHistory : List Message
  prompt : Message
  temperature : ℚ
  maxTokens : ℕ
  tools : List ToolDefinition
deriving DecidableEq, Repr

/-- The response choice: `resp.choice` in the source is a
`OneOrMany<AssistantContent>`. -/
abbrev Choice := OneOrMany AssistantContent

/-- The completion model as a pure function: `model.completion(request)`
returns a choice or fails with a completion error (carried as the error's
display string). -/
abbrev CompletionModelFn := CompletionRequest → Except String Choice

/-- The tool set as a pure function: `toolset.call(name, args)` returns the
tool's text output or fails with a tool error (carried as the error's display
string, which is what `e.to_string()` produces in the source). -/
abbrev ToolSetFn := String → String → Except String String

/-- Builds the completion request exactly as the loop body does each
iteration (src/main.rs lines 137-143). -/
def buildRequest (preamble : String) (chatHistory : List Message)
    (prompt : Message) (tooldefs : List ToolDefinition) : CompletionRequest :=
  { preamble := preamble
    chatHistory := chatHistory
    prompt := prompt
    temperature := 0
    maxTokens := 1024
    tools := tooldefs }

/-- Outcome of one iteration of the `loop` in `call_until_response`:
the completion call failed (`?` propagates the mapped error), the model
answered with text (the function returns), or a tool round-trip happened
(`continue` with a new pending prompt and a grown chat history). -/
inductive StepOutcome where
  | fatal (err : String)
  | done (answer : String) (chatHistory : List Message)
  | next (nextPrompt : Message) (chatHistory : List Message)
deriving DecidableEq, Repr

/-- One iteration of the `loop` body of `call_until_response`
(src/main.rs lines 136-205). The Rust code mutates `chat_history` and
`prompt` in place; here the updated values are returned. On a text response
the pair `(prompt, Message::assistant(text))` is pushed and the text
returned; on a tool call the tool is invoked with the call's name and
serialized arguments, the pair `(prompt, Message::Assistant(ToolCall))` is
pushed, and the next prompt becomes a user `ToolResult` carrying the call's
id and the tool's output text (error branch, lines 169-185) or output text
(success branch, lines 188-203). -/
def driverStep (model : CompletionModelFn) (toolset : ToolSetFn)
    (preamble : String) (tooldefs : List ToolDefinition)
    (prompt : Message) (chatHistory : List Message) : StepOutcome :=
  match model (buildRequest preamble chatHistory prompt tooldefs) with
  | .error e => .fatal ("Error when prompting: " ++ e)
  | .ok choice =>
    match choice.first with
    | .text t =>
      .done t (chatHistory ++ [prompt, Message.assistant (OneOrMany.one (AssistantContent.text t))])
    | .toolCall tc =>
      match toolset tc.function.name tc.function.arguments with
      | .error e =>
        .next (Message.user (OneOrMany.one (UserContent.toolResult tc.id e)))
          (chatHistory ++ [prompt, Message.assistant (OneOrMany.one (AssistantContent.toolCall tc))])
      | .ok r =>
        .next (Message.user (OneOrMany.one (UserContent.toolResult tc.id r)))
          (chatHistory ++ [prompt, Message.assistant (OneOrMany.one (AssistantContent.toolCall tc))])

/-- The driver `call_until_response` (src/main.rs lines 128-207), with fuel
bounding the number of loop iterations; `none` means the loop did not finish
within the fuel. On success it returns the answer string and the final chat
history; on a completion error it returns the mapped error message together
with the chat history at that point (the Rust `&mut Vec` keeps whatever
earlier iterations pushed). -/
def call_until_response (model : CompletionModelFn) (toolset : ToolSetFn)
    (preamble : String) (tooldefs : List ToolDefinition) :
    ℕ → Message → List Message →
    Option (Except (String × List Message) (String × List Message))
  | 0, _, _ => none
  | fuel + 1, prompt, chatHistory =>
    match driverStep model toolset preamble tooldefs prompt chatHistory with
    | .fatal e => some (.error (e, chatHistory))
    | .done t h => some (.ok (t, h))
    | .next p h => call_until_response model toolset preamble tooldefs fuel p h

/-- Number of tool round-trips (iterations ending in `continue`) the driver
performs before stopping, within the given fuel. -/
def roundTrips (model : CompletionModelFn) (toolset : ToolSetFn)
    (preamble : String) (tooldefs : List ToolDefinition) :
    ℕ → Message → List Message → ℕ
  | 0, _, _ => 0
  | fuel + 1, prompt, chatHistory =>
    match driverStep model toolset preamble tooldefs prompt chatHistory with
    | .next p h => roundTrips model toolset preamble tooldefs fuel p h + 1
    | _ => 0

/-- The sequence of completion requests the driver builds and sends, one per
loop iteration, within the given fuel. -/
def driverRequests (model : CompletionModelFn) (toolset : ToolSetFn)
    (preamble : String) (tooldefs : List ToolDefinition) :
    ℕ → Message → List Message → List CompletionRequest
  | 0, _, _ => []
  | fuel + 1, prompt, chatHistory =>
    buildRequest preamble chatHistory prompt tooldefs ::
      match driverStep model toolset preamble tooldefs prompt chatHistory with
      | .next p h => driverRequests model toolset preamble tooldefs fuel p h
      | _ => []

/-- The preamble constant `PREAMBLE` of src/main.rs lines 115-126. -/
def PREAMBLE : String :=
  "You are an agent designed to qualify sales leads from Google Sheets.\n\nUsers will typically ask you to qualify leads from Google Forms submissions\n(or imported spreadsheets from results of other form submission-type applications).\n\nYour job is to qualify sales leads based on the user's criteria.\nIf they don't give you a criteria for qualification,\nask what demographic the user is trying to capture with the form and qualify leads based off of that.\n\nWhen creating the results, use a new sheet in the spreadsheet file the user has provided you with.\nWhen done, specify the location of the sheet so that the user can inspect the result for themselves.\n"

/-- Mirrors `take_input` (src/main.rs lines 59-64): `stdin().read_line`
appends the typed line including its trailing newline and the function
returns the string untrimmed. The argument is the line as typed, without the
terminator. -/
def take_input (line : String) : String := line ++ "\n"

/-- How a run of the `main` session loop ends: the `quit` branch (farewell
printed, loop broken, `Ok(())`), a panic from `.unwrap()` on a driver error,
end of the modelled stdin, or driver fuel exhaustion (an artifact of the
fueled embedding). -/
inductive SessionOutcome where
  | quitNormally
  | panicked (err : String)
  | stdinExhausted
  | outOfFuel
deriving DecidableEq, Repr

/-- The session loop of `main` (src/main.rs lines 32-54) over a finite list
of stdin lines: read a line with `take_input`, break with the farewell if it
equals `"quit"`, otherwise run `call_until_response` on the line as a user
text message (Rust `prompt.into()`), `.unwrap()` the result (a driver error
panics, ending the whole process) and print it. Returns the printed answers,
the final chat history, and how the session ended. -/
def mainLoop (model : CompletionModelFn) (toolset : ToolSetFn)
    (tooldefs : List ToolDefinition) (fuelPerTurn : ℕ) :
    List String → List Message → List String × List Message × SessionOutcome
  | [], chatHistory => ([], chatHistory, .stdinExhausted)
  | line :: rest, chatHistory =>
    let prompt := take_input line
    if prompt = "quit" then
      (["Thanks for using me! I am quitting now."], chatHistory, .quitNormally)
    else
      match call_until_response model toolset PREAMBLE tooldefs fuelPerTurn
          (Message.user (OneOrMany.one (UserContent.text prompt))) chatHistory with
      | none => ([], chatHistory, .outOfFuel)
      | some (.error (e, h)) => ([], h, .panicked e)
      | some (.ok (res, h)) =>
        let r := mainLoop model toolset tooldefs fuelPerTurn rest h
        (res :: r.1, r.2.1, r.2.2)

/-- The text the driver forwards for a tool outcome: the tool's output on
success, the error's display text on failure. -/
def toolOutcomeText : Except String String → String
  | .ok r => r
  | .error e => e

/-- Strict user/assistant alternation: `alternatingFrom b l` holds when the
messages of `l` alternate between user (`b = true`) and assistant
(`b = false`) tags, starting with `b`. -/
def alternatingFrom : Bool → List Message → Bool
  | _, [] => true
  | b, m :: rest => (m.isUser == b) && alternatingFrom (!b) rest

/-- Every assistant message whose first content item is a tool call is
immediately followed by a user message whose first content item is a tool
result with the same id. -/
def toolCallsLinked : List Message → Bool
  | [] => true
  | Message.assistant c :: rest =>
    (match c.first with
     | AssistantContent.toolCall tc =>
       match rest with
       | Message.user c2 :: _ =>
         match c2.first with
         | UserContent.toolResult rid _ => tc.id == rid
         | _ => false
       | _ => false
     | _ => true) && toolCallsLinked rest
  | Message.user _ :: rest => toolCallsLinked rest

/-- A completion model that always asks for the same tool call. -/
def alwaysToolCallModel (tc : ToolCall) : CompletionModelFn :=
  fun _ => .ok (OneOrMany.one (AssistantContent.toolCall tc))

/-- A completion model that always answers with the same text. -/
def constTextModel (t : String) : CompletionModelFn :=
  fun _ => .ok (OneOrMany.one (AssistantContent.text t))

/-- A completion model that always fails with the same completion error. -/
def alwaysFailModel (e : String) : CompletionModelFn :=
  fun _ => .error e

/-- A concrete tool call used in the scenario of the spec: the model asks for
`list_rows` on a filter. -/
def demoToolCall : ToolCall := ⟨"call-1", ⟨"list_rows", "filter=Bob"⟩⟩

/-- A concrete scripted completion model, pure in its request: it asks for
`demoToolCall` when the history is empty and answers with text afterwards. -/
def demoModel : CompletionModelFn := fun req =>
  if req.chatHistory.length = 0 then
    .ok (OneOrMany.one (AssistantContent.toolCall demoToolCall))
  else
    .ok (OneOrMany.one (AssistantContent.text "Found 1 matching lead: Bob."))

/-- A concrete tool set knowing only `list_rows`; any other name fails the
way an unknown tool does. -/
def demoToolset : ToolSetFn := fun name _ =>
  if name = "list_rows" then .ok "rows: Bob"
  else .error ("ToolNotFoundError: " ++ name)

/-- A concrete first user prompt. -/
def demoPrompt : Message :=
  Message.user (OneOrMany.one (UserContent.text "List leads named Bob"))

/-- A tool call naming a tool `demoToolset` does not know. -/
def demoUnknownToolCall : ToolCall := ⟨"call-2", ⟨"no_such_tool", "x=1"⟩⟩

/-- A completion model that always asks for the unknown tool. -/
def demoUnknownModel : CompletionModelFn :=
  fun _ => .ok (OneOrMany.one (AssistantContent.toolCall demoUnknownToolCall))

/-- A second copy of a constant-text model, definitionally separate from
`constTextModel`, for replay comparisons. -/
def constTextModelReplay (t : String) : CompletionModelFn :=
  fun _ => .ok (OneOrMany.one (AssistantContent.text t))

/-- A model returning the same first content item as `constTextModel "same"`
but with extra trailing content items. -/
def extraItemsModel : CompletionModelFn :=
  fun _ => .ok ⟨AssistantContent.text "same", [AssistantContent.text "extra, ignored"]⟩

/-- Reading the first element of a singleton `OneOrMany`. -/
@[simp] theorem OneOrMany.first_one {α : Type} (x : α) : (OneOrMany.one x).first = x := rfl

/-- A user message is tagged user. -/
@[simp] theorem Message.isUser_user (c : OneOrMany UserContent) :
    (Message.user c).isUser = true := rfl

/-- An assistant message is not tagged user. -/
@[simp] theorem Message.isUser_assistant (c : OneOrMany AssistantContent) :
    (Message.assistant c).isUser = false := rfl

/-- Inversion for the text branch of the loop body: a `done` outcome pushed
exactly the pending prompt and the assistant text answer. -/
theorem driverStep_done_inv (model : CompletionModelFn) (toolset : ToolSetFn)
    (preamble : String) (tooldefs : List ToolDefinition)
    (prompt : Message) (chatHistory : List Message) (t : String) (h : List Message)
    (hs : driverStep model toolset preamble tooldefs prompt chatHistory = .done t h) :
    h = chatHistory ++ [prompt, Message.assistant (OneOrMany.one (AssistantContent.text t))] := by
  cases hm : model (buildRequest preamble chatHistory prompt tooldefs) with
  | error e =>
    simp only [driverStep, hm] at hs
    exact StepOutcome.noConfusion hs
  | ok choice =>
    cases hc : choice.first with
    | text t0 =>
      simp only [driverStep, hm, hc] at hs
      injection hs with h1 h2
      subst h1
      exact h2.symm
    | toolCall tc =>
      cases ht : toolset tc.function.name tc.function.arguments with
      | error e =>
        simp only [driverStep, hm, hc, ht] at hs
        exact StepOutcome.noConfusion hs
      | ok r =>
        simp only [driverStep, hm, hc, ht] at hs
        exact StepOutcome.noConfusion hs

/-- Inversion for the tool-call branch of the loop body: a `next` outcome
pushed the pending prompt plus the assistant tool call, and the next prompt
is a user tool result carrying the call's id. -/
theorem driverStep_next_inv (model : CompletionModelFn) (toolset : ToolSetFn)
    (preamble : String) (tooldefs : List ToolDefinition)
    (prompt : Message) (chatHistory : List Message) (p : Message) (h : List Message)
    (hs : driverStep model toolset preamble tooldefs prompt chatHistory = .next p h) :
    ∃ tc r, p = Message.user (OneOrMany.one (UserContent.toolResult tc.id r)) ∧
      h = chatHistory ++
        [prompt, Message.assistant (OneOrMany.one (AssistantContent.toolCall tc))] := by
  cases hm : model (buildRequest preamble chatHistory prompt tooldefs) with
  | error e =>
    simp only [driverStep, hm] at hs
    exact StepOutcome.noConfusion hs
  | ok choice =>
    cases hc : choice.first with
    | text t0 =>
      simp only [driverStep, hm, hc] at hs
      exact StepOutcome.noConfusion hs
    | toolCall tc =>
      cases ht : toolset tc.function.name tc.function.arguments with
      | error e =>
        simp only [driverStep, hm, hc, ht] at hs
        injection hs with h1 h2
        exact ⟨tc, e, h1.symm, h2.symm⟩
      | ok r =>
        simp only [driverStep, hm, hc, ht] at hs
        injection hs with h1 h2
        exact ⟨tc, r, h1.symm, h2.symm⟩

/-- Claim C3: for every completion response whose first content item is
`Text(t)`, the driver returns exactly `t` and the transcript grows by exactly
the pending message followed by an assistant message containing `t`. -/
theorem c3_text_response (model : CompletionModelFn) (toolset : ToolSetFn)
    (preamble : String) (tooldefs : List ToolDefinition) (fuel : ℕ)
    (prompt : Message) (chatHistory : List Message) (choice : Choice) (t : String)
    (hm : model (buildRequest preamble chatHistory prompt tooldefs) = .ok choice)
    (hc : choice.first = .text t) :
    call_until_response model toolset preamble tooldefs (fuel + 1) prompt chatHistory =
      some (.ok (t, chatHistory ++
        [prompt, Message.assistant (OneOrMany.one (AssistantContent.text t))])) := by
  simp only [call_until_response, driverStep, hm, hc]

/-- Claim C5: a failed tool invocation does not abort the turn: the driver
appends the pending message and the assistant tool call to the transcript,
turns the error text into a user `ToolResult` with the same id, makes it the
next pending message, and continues the loop. -/
theorem c5_tool_error_recoverable (model : CompletionModelFn) (toolset : ToolSetFn)
    (preamble : String) (tooldefs : List ToolDefinition) (fuel : ℕ)
    (prompt : Message) (chatHistory : List Message) (choice : Choice) (tc : ToolCall) (e : String)
    (hm : model (buildRequest preamble chatHistory prompt tooldefs) = .ok choice)
    (hc : choice.first = .toolCall tc)
    (ht : toolset tc.function.name tc.function.arguments = .error e) :
    call_until_response model toolset preamble tooldefs (fuel + 1) prompt chatHistory =
      call_until_response model toolset preamble tooldefs fuel
        (Message.user (OneOrMany.one (UserContent.toolResult tc.id e)))
        (chatHistory ++
          [prompt, Message.assistant (OneOrMany.one (AssistantContent.toolCall tc))]) := by
  simp only [call_until_response, driverStep, hm, hc, ht]

/-- Claim C6: for every completion response whose first content item is a
tool call, the tool set is called with exactly the call's name and arguments,
and the resulting success or error text appears verbatim as the content of
the next `ToolResult` message, keyed by the same id. -/
theorem c6_tool_invocation (model : CompletionModelFn) (toolset : ToolSetFn)
    (preamble : String) (tooldefs : List ToolDefinition)
    (prompt : Message) (chatHistory : List Message) (choice : Choice) (tc : ToolCall)
    (hm : model (buildRequest preamble chatHistory prompt tooldefs) = .ok choice)
    (hc : choice.first = .toolCall tc) :
    driverStep model toolset preamble tooldefs prompt chatHistory =
      .next (Message.user (OneOrMany.one (UserContent.toolResult tc.id
          (toolOutcomeText (toolset tc.function.name tc.function.arguments)))))
        (chatHistory ++
          [prompt, Message.assistant (OneOrMany.one (AssistantContent.toolCall tc))]) := by
  simp only [driverStep, hm, hc]
  cases htx : toolset tc.function.name tc.function.arguments <;> simp [toolOutcomeText, htx]

/-- Claim C2: a driver run that ends in a text answer after `N` tool
round-trips (`N = roundTrips ...`) grows the transcript by exactly `2N + 2`
messages, in strict alternating user/assistant order starting with the
pending user prompt, with every assistant tool-call message immediately
followed by the user tool-result message carrying the same id. -/
theorem c2_transcript_shape (model : CompletionModelFn) (toolset : ToolSetFn)
    (preamble : String) (tooldefs : List ToolDefinition) (fuel : ℕ) :
    ∀ (prompt : Message) (chatHistory : List Message) (t : String)
      (finalHistory : List Message),
      prompt.isUser = true →
      call_until_response model toolset preamble tooldefs fuel prompt chatHistory =
        some (Except.ok (t, finalHistory)) →
      ∃ Δ, finalHistory = chatHistory ++ Δ ∧
        Δ.length =
          2 * roundTrips model toolset preamble tooldefs fuel prompt chatHistory + 2 ∧
        Δ.head? = some prompt ∧
        alternatingFrom true Δ = true ∧
        toolCallsLinked Δ = true := by
  induction fuel with
  | zero =>
    intro prompt hist t fh hu h
    simp [call_until_response] at h
  | succ n ih =>
    intro prompt hist t fh hu h
    cases hs : driverStep model toolset preamble tooldefs prompt hist with
    | fatal e =>
      simp only [call_until_response, hs] at h
      simp at h
    | done t0 h0 =>
      simp only [call_until_response, hs] at h
      simp only [Option.some.injEq, Except.ok.injEq, Prod.mk.injEq] at h
      obtain ⟨rfl, rfl⟩ := h
      have hd := driverStep_done_inv model toolset preamble tooldefs prompt hist t0 h0 hs
      subst hd
      cases prompt with
      | assistant c => simp [Message.isUser] at hu
      | user c =>
        refine ⟨[Message.user c,
          Message.assistant (OneOrMany.one (AssistantContent.text t0))], rfl, ?_, rfl, ?_, ?_⟩
        · simp [roundTrips, hs]
        · simp [alternatingFrom]
        · simp [toolCallsLinked]
    | next p h2 =>
      simp only [call_until_response, hs] at h
      obtain ⟨tc, r, hp, hh⟩ :=
        driverStep_next_inv model toolset preamble tooldefs prompt hist p h2 hs
      subst hp hh
      obtain ⟨Δ, hΔ, hlen, hhead, halt, hlink⟩ := ih _ _ _ _ (Message.isUser_user _) h
      cases prompt with
      | assistant c => simp [Message.isUser] at hu
      | user c =>
        cases Δ with
        | nil => simp at hhead
        | cons m Δt =>
          simp only [List.head?_cons, Option.some.injEq] at hhead
          subst hhead
          refine ⟨Message.user c ::
              Message.assistant (OneOrMany.one (AssistantContent.toolCall tc)) ::
              Message.user (OneOrMany.one (UserContent.toolResult tc.id r)) :: Δt,
            ?_, ?_, rfl, ?_, ?_⟩
          · rw [hΔ]
            simp
          · simp only [List.length_cons] at hlen ⊢
            simp only [roundTrips, hs]
            omega
          · simp only [alternatingFrom, Message.isUser_user, Message.isUser_assistant] at halt ⊢
            simpa using halt
          · simp only [toolCallsLinked, OneOrMany.first_one] at hlink ⊢
            simpa using hlink

/-- The loop body depends on the completion response only through its first
content item (and the error case): two models agreeing on
`(· req).map OneOrMany.first` yield identical step outcomes. -/
theorem driverStep_first_only (model1 model2 : CompletionModelFn) (toolset : ToolSetFn)
    (preamble : String) (tooldefs : List ToolDefinition)
    (hagree : ∀ req, (model1 req).map OneOrMany.first = (model2 req).map OneOrMany.first)
    (prompt : Message) (chatHistory : List Message) :
    driverStep model1 toolset preamble tooldefs prompt chatHistory =
      driverStep model2 toolset preamble tooldefs prompt chatHistory := by
  have ha := hagree (buildRequest preamble chatHistory prompt tooldefs)
  cases h1 : model1 (buildRequest preamble chatHistory prompt tooldefs) with
  | error e =>
    cases h2 : model2 (buildRequest preamble chatHistory prompt tooldefs) with
    | error e2 =>
      rw [h1, h2] at ha
      simp only [Except.map, Except.error.injEq] at ha
      subst ha
      simp only [driverStep, h1, h2]
    | ok c2 =>
      rw [h1, h2] at ha
      simp [Except.map] at ha
  | ok c1 =>
    cases h2 : model2 (buildRequest preamble chatHistory prompt tooldefs) with
    | error e2 =>
      rw [h1, h2] at ha
      simp [Except.map] at ha
    | ok c2 =>
      rw [h1, h2] at ha
      simp only [Except.map, Except.ok.injEq] at ha
      simp only [driverStep, h1, h2, ha]

/-- Claim C7: the driver's behavior depends only on the first content item of
each completion response: two models whose responses agree on their first
content item (and on errors) produce the same driver result — the remaining
content items never affect the transcript or the returned answer. -/
theorem c7_first_item_only (model1 model2 : CompletionModelFn) (toolset : ToolSetFn)
    (preamble : String) (tooldefs : List ToolDefinition)
    (hagree : ∀ req, (model1 req).map OneOrMany.first = (model2 req).map OneOrMany.first) :
    ∀ (fuel : ℕ) (prompt : Message) (chatHistory : List Message),
      call_until_response model1 toolset preamble tooldefs fuel prompt chatHistory =
        call_until_response model2 toolset preamble tooldefs fuel prompt chatHistory := by
  intro fuel
  induction fuel with
  | zero => intro p h; rfl
  | succ n ih =>
    intro p h
    have hs := driverStep_first_only model1 model2 toolset preamble tooldefs hagree p h
    simp only [call_until_response, hs]
    cases driverStep model2 toolset preamble tooldefs p h with
    | fatal e => rfl
    | done t h0 => rfl
    | next p2 h2 => exact ih p2 h2

/-- Claim C8: determinism — with the completion model and the tool set given
as pure functions, replaying the same stdin lines from a fresh (empty)
transcript produces the identical printed answers, final transcript and
session outcome; extensionally equal collaborators give identical replays. -/
theorem c8_determinism (model1 model2 : CompletionModelFn) (toolset1 toolset2 : ToolSetFn)
    (tooldefs : List ToolDefinition) (fuelPerTurn : ℕ)
    (hm : ∀ req, model1 req = model2 req)
    (ht : ∀ name args, toolset1 name args = toolset2 name args) :
    ∀ lines : List String,
      mainLoop model1 toolset1 tooldefs fuelPerTurn lines [] =
        mainLoop model2 toolset2 tooldefs fuelPerTurn lines [] := by
  have h1 : model1 = model2 := funext hm
  have h2 : toolset1 = toolset2 := funext fun n => funext fun a => ht n a
  subst h1
  subst h2
  intro lines
  rfl

/-- Claim C9: the driver places no bound on tool round-trips: against a model
that always answers with a tool call, the loop consumes any amount of fuel
(`roundTrips` equals the fuel, so it exceeds every bound) and never produces
a result — in particular it never produces a `ToolLoopExceeded`-style error,
since for every fuel the outcome is `none`, not an error value. -/
theorem c9_unbounded_loop (tc : ToolCall) (toolset : ToolSetFn)
    (preamble : String) (tooldefs : List ToolDefinition) :
    ∀ (fuel : ℕ) (prompt : Message) (chatHistory : List Message),
      call_until_response (alwaysToolCallModel tc) toolset preamble tooldefs fuel
          prompt chatHistory = none ∧
        roundTrips (alwaysToolCallModel tc) toolset preamble tooldefs fuel
          prompt chatHistory = fuel := by
  intro fuel
  induction fuel with
  | zero => intro p h; exact ⟨rfl, rfl⟩
  | succ n ih =>
    intro p h
    cases htx : toolset tc.function.name tc.function.arguments with
    | error e =>
      constructor
      · simp only [call_until_response, driverStep, alwaysToolCallModel,
          OneOrMany.first_one, htx]
        exact (ih _ _).1
      · simp only [roundTrips, driverStep, alwaysToolCallModel, OneOrMany.first_one, htx]
        rw [(ih _ _).2]
    | ok r =>
      constructor
      · simp only [call_until_response, driverStep, alwaysToolCallModel,
          OneOrMany.first_one, htx]
        exact (ih _ _).1
      · simp only [roundTrips, driverStep, alwaysToolCallModel, OneOrMany.first_one, htx]
        rw [(ih _ _).2]

/-- Claim C10: every completion request the driver sends has
`temperature = 0` and `maxTokens = 1024`, carries the fixed preamble and tool
definitions unchanged, and is rebuilt by `buildRequest` from the pending
message and the chat history of its own iteration. -/
theorem c10_request_constants (model : CompletionModelFn) (toolset : ToolSetFn)
    (preamble : String) (tooldefs : List ToolDefinition) :
    ∀ (fuel : ℕ) (prompt : Message) (chatHistory : List Message)
      (req : CompletionRequest),
      req ∈ driverRequests model toolset preamble tooldefs fuel prompt chatHistory →
      req.temperature = 0 ∧ req.maxTokens = 1024 ∧ req.preamble = preamble ∧
        req.tools = tooldefs ∧
        ∃ p h, req = buildRequest preamble h p tooldefs := by
  intro fuel
  induction fuel with
  | zero =>
    intro p h req hmem
    simp [driverRequests] at hmem
  | succ n ih =>
    intro p h req hmem
    simp only [driverRequests] at hmem
    rcases List.mem_cons.mp hmem with heq | htail
    · subst heq
      exact ⟨rfl, rfl, rfl, rfl, p, h, rfl⟩
    · cases hs : driverStep model toolset preamble tooldefs p h with
      | fatal e => rw [hs] at htail; simp at htail
      | done t h0 => rw [hs] at htail; simp at htail
      | next p2 h2 =>
        rw [hs] at htail
        exact ih p2 h2 req htail

/-- Claim C1 (code bug): typing the line `quit` does not terminate the
session. `take_input` returns the line including its trailing newline
(`"quit\n"`), the comparison with `"quit"` fails, and the line is sent as a
prompt: the run below invokes the completion model (its answer is printed and
recorded in the transcript) and the session does not end in the quit branch,
contradicting the program's own greeting `write "quit" to exit`. -/
theorem c1_quit_line_reaches_model :
    mainLoop (constTextModel "model was invoked") (fun _ _ => .ok "") [] 2 ["quit"] [] =
      (["model was invoked"],
        [Message.user (OneOrMany.one (UserContent.text "quit\n")),
         Message.assistant (OneOrMany.one (AssistantContent.text "model was invoked"))],
        .stdinExhausted) := by
  decide

/-- Claim C4, counterexample to "ends that turn (not the whole session)":
with a completion model that fails, a session holding a second input line
ends at the first turn with a panic (`.unwrap()` in `main`), the second line
never being processed — the whole session dies, not just the turn. -/
theorem c4_counterexample_session_dies :
    mainLoop (alwaysFailModel "backend down") (fun _ _ => .ok "") [] 3
        ["hello", "second turn"] [] =
      ([], [], .panicked "Error when prompting: backend down") := by
  decide

/-- Claim C4 (amended): a completion error is propagated by the driver
immediately with the transcript exactly as it was before that step (no
partial append), and it surfaces to `main`, whose `.unwrap()` panics —
reporting the diagnostic and terminating the whole session. -/
theorem c4_amended_fatal_completion_error :
    (∀ (model : CompletionModelFn) (toolset : ToolSetFn) (preamble : String)
        (tooldefs : List ToolDefinition) (fuel : ℕ) (prompt : Message)
        (chatHistory : List Message) (e : String),
        model (buildRequest preamble chatHistory prompt tooldefs) = .error e →
        call_until_response model toolset preamble tooldefs (fuel + 1) prompt chatHistory =
          some (.error ("Error when prompting: " ++ e, chatHistory))) ∧
    (∀ (e : String) (toolset : ToolSetFn) (tooldefs : List ToolDefinition)
        (fuel : ℕ) (line : String) (rest : List String) (chatHistory : List Message),
        take_input line ≠ "quit" →
        mainLoop (alwaysFailModel e) toolset tooldefs (fuel + 1) (line :: rest) chatHistory =
          ([], chatHistory, .panicked ("Error when prompting: " ++ e))) := by
  constructor
  · intro model toolset preamble tooldefs fuel prompt hist e hm
    simp only [call_until_response, driverStep, hm]
  · intro e toolset tooldefs fuel line rest hist hq
    simp only [mainLoop]
    rw [if_neg hq]
    simp only [call_until_response, driverStep, alwaysFailModel]

/-- Witness for C4's amended theorem at a failing model and one input line. -/
theorem c4_witness :
    call_until_response (alwaysFailModel "backend down") demoToolset "p" [] (0 + 1)
        demoPrompt [] =
      some (.error ("Error when prompting: " ++ "backend down", [])) ∧
    mainLoop (alwaysFailModel "backend down") demoToolset [] (2 + 1) ["hello"] [] =
      ([], [], .panicked ("Error when prompting: " ++ "backend down")) :=
  ⟨c4_amended_fatal_completion_error.1 (alwaysFailModel "backend down") demoToolset "p" []
      0 demoPrompt [] "backend down" rfl,
    c4_amended_fatal_completion_error.2 "backend down" demoToolset [] 2 "hello" [] []
      (by decide)⟩

/-- Witness for C2 at a concrete run: one tool round-trip, then a text
answer; the transcript is the four expected messages. -/
theorem c2_witness :
    ∃ Δ,
      [demoPrompt,
       Message.assistant (OneOrMany.one (AssistantContent.toolCall demoToolCall)),
       Message.user (OneOrMany.one (UserContent.toolResult "call-1" "rows: Bob")),
       Message.assistant (OneOrMany.one (AssistantContent.text "Found 1 matching lead: Bob."))] =
        [] ++ Δ ∧
      Δ.length = 2 * roundTrips demoModel demoToolset "p" [] 3 demoPrompt [] + 2 ∧
      Δ.head? = some demoPrompt ∧
      alternatingFrom true Δ = true ∧
      toolCallsLinked Δ = true :=
  c2_transcript_shape demoModel demoToolset "p" [] 3 demoPrompt []
    "Found 1 matching lead: Bob."
    [demoPrompt,
     Message.assistant (OneOrMany.one (AssistantContent.toolCall demoToolCall)),
     Message.user (OneOrMany.one (UserContent.toolResult "call-1" "rows: Bob")),
     Message.assistant (OneOrMany.one (AssistantContent.text "Found 1 matching lead: Bob."))]
    rfl rfl

/-- Witness for C3 at a concrete text-only model. -/
theorem c3_witness :
    call_until_response (constTextModel "hi") demoToolset "p" [] (0 + 1) demoPrompt [] =
      some (.ok ("hi",
        [] ++ [demoPrompt, Message.assistant (OneOrMany.one (AssistantContent.text "hi"))])) :=
  c3_text_response (constTextModel "hi") demoToolset "p" [] 0 demoPrompt []
    (OneOrMany.one (AssistantContent.text "hi")) "hi" rfl rfl

/-- Witness for C5 at an unknown tool name: the error text becomes the next
tool-result prompt with the call's id and the loop continues. -/
theorem c5_witness :
    call_until_response demoUnknownModel demoToolset "p" [] (1 + 1) demoPrompt [] =
      call_until_response demoUnknownModel demoToolset "p" [] 1
        (Message.user (OneOrMany.one (UserContent.toolResult "call-2"
          "ToolNotFoundError: no_such_tool")))
        ([] ++ [demoPrompt,
          Message.assistant (OneOrMany.one (AssistantContent.toolCall demoUnknownToolCall))]) :=
  c5_tool_error_recoverable demoUnknownModel demoToolset "p" [] 1 demoPrompt []
    (OneOrMany.one (AssistantContent.toolCall demoUnknownToolCall)) demoUnknownToolCall
    "ToolNotFoundError: no_such_tool" rfl rfl rfl

/-- Witness for C6 at a concrete tool call. -/
theorem c6_witness :
    driverStep demoModel demoToolset "p" [] demoPrompt [] =
      .next (Message.user (OneOrMany.one (UserContent.toolResult "call-1"
          (toolOutcomeText (demoToolset "list_rows" "filter=Bob")))))
        ([] ++ [demoPrompt,
          Message.assistant (OneOrMany.one (AssistantContent.toolCall demoToolCall))]) :=
  c6_tool_invocation demoModel demoToolset "p" [] demoPrompt []
    (OneOrMany.one (AssistantContent.toolCall demoToolCall)) demoToolCall rfl rfl

/-- Witness for C7: a model with extra trailing content items behaves like
the model returning only the shared first item. -/
theorem c7_witness :
    call_until_response (constTextModel "same") demoToolset "p" [] 1 demoPrompt [] =
      call_until_response extraItemsModel demoToolset "p" [] 1 demoPrompt [] :=
  c7_first_item_only (constTextModel "same") extraItemsModel demoToolset "p" []
    (fun _ => rfl) 1 demoPrompt []

/-- Witness for C8: two definitionally separate but extensionally equal
model stubs replay identically. -/
theorem c8_witness :
    mainLoop (constTextModel "same") demoToolset [] 2 ["hello"] [] =
      mainLoop (constTextModelReplay "same") demoToolset [] 2 ["hello"] [] :=
  c8_determinism (constTextModel "same") (constTextModelReplay "same") demoToolset demoToolset
    [] 2 (fun _ => rfl) (fun _ _ => rfl) ["hello"]

/-- Witness for C10 at the first request of a concrete run. -/
theorem c10_witness :
    (buildRequest "p" [] demoPrompt []).temperature = 0 ∧
    (buildRequest "p" [] demoPrompt []).maxTokens = 1024 ∧
    (buildRequest "p" [] demoPrompt []).preamble = "p" ∧
    (buildRequest "p" [] demoPrompt []).tools = [] ∧
    ∃ p h, buildRequest "p" [] demoPrompt [] = buildRequest "p" h p [] :=
  c10_request_constants (constTextModel "x") demoToolset "p" [] (0 + 1) demoPrompt []
    (buildRequest "p" [] demoPrompt []) (by decide)
